import Mathlib

/-!
# Rick and Morty API client (`script.js`): view state, filter, render surface, theme

A shallow embedding of `src/script.js`.

* The module-level variables (`currentPage`, `totalPages`, `allCharacters`,
  `filteredCharacters`, `selectedStatus`) and the properties of the DOM elements the
  script writes to are the fields of one record, `AppState`; every function of the script
  that reads or writes them is a function on that record.
* `await fetch(url)` is the only point where the outside world answers. Its answer is an
  explicit argument, `FetchOutcome`, so that `fetchCharacters` and `loadPage` are total
  functions of the state before the call, the page number and the answer.
* `String.prototype.toLowerCase` is a platform built-in, not code of the script. It is an
  argument (`toLowerCase`) of every function that uses it, and every theorem holds for any
  such function.
* `Array.prototype.filter` is `List.filter`; `forEach` is a left fold.
* `console.log`, `console.error` and `window.scrollTo` do not touch the state and are left out.
-/

namespace RickMorty

/-! ## Configuration constants (lines 18-20) -/

/-- Base URL of the character endpoint. -/
def API_BASE_URL : String := "https://rickandmortyapi.com/api/character"

/-- Declared by the script, used nowhere in it. -/
def CHARACTERS_PER_PAGE : Nat := 20

/-- Key of the persisted theme preference. -/
def THEME_STORAGE_KEY : String := "rick-morty-theme"

/-! ## Data model -/

/-- One character object of the API, with the fields the script reads
(`location.name` is flattened to `locationName`). -/
structure Character where
  id : Nat
  name : String
  status : String
  species : String
  gender : String
  locationName : String
  image : String
  deriving DecidableEq, Repr

/-- The JSON body of a successful response: `data.info.pages` and `data.results`. -/
structure PageData where
  pages : Nat
  results : List Character
  deriving DecidableEq, Repr

/-- What `await fetch(url)` followed by `await response.json()` can come back with. -/
inductive FetchOutcome where
  /-- The promise of `fetch` rejects with an error carrying `message`. -/
  | networkError (message : String)
  /-- A response arrives whose `ok` flag is false. -/
  | httpError (status : Nat) (statusText : String)
  /-- A response with `ok` set arrives and its body parses to `data`. -/
  | ok (data : PageData)
  deriving DecidableEq, Repr

/-- A DOM element as far as the script sets it up: tag name, `className`, the properties
and inline styles assigned, `textContent`, and the children appended, in order. -/
inductive Element where
  | node (tag : String) (className : String) (props : List (String × String))
      (style : List (String × String)) (textContent : String) (children : List Element)

/-- Tag name of an element. -/
def Element.tag : Element → String
  | .node t _ _ _ _ _ => t

/-- Value of `className` of an element. -/
def Element.className : Element → String
  | .node _ c _ _ _ _ => c

/-- Value of `textContent` set on an element. -/
def Element.textContent : Element → String
  | .node _ _ _ _ t _ => t

/-- Children of an element, in the order appended. -/
def Element.children : Element → List Element
  | .node _ _ _ _ _ cs => cs

/-- Result of `document.createElement(tag)`: nothing set, no children. -/
def createElement (tag : String) : Element := .node tag "" [] [] "" []

/-- Assignment `el.className = c`. -/
def Element.setClassName : Element → String → Element
  | .node t _ p s x cs, c => .node t c p s x cs

/-- Assignment `el.key = value` for a plain property (`src`, `alt`, `loading`). -/
def Element.setProp : Element → String → String → Element
  | .node t c p s x cs, k, v => .node t c (p ++ [(k, v)]) s x cs

/-- Assignment `el.style.key = value`. -/
def Element.setStyle : Element → String → String → Element
  | .node t c p s x cs, k, v => .node t c p (s ++ [(k, v)]) x cs

/-- Assignment `el.textContent = text`. -/
def Element.setTextContent : Element → String → Element
  | .node t c p s _ cs, x => .node t c p s x cs

/-- Call `el.appendChild(child)`: the child becomes the last child. -/
def Element.appendChild : Element → Element → Element
  | .node t c p s x cs, child => .node t c p s x (cs ++ [child])

/-- The module variables (lines 26-30), the DOM properties the script writes, and the
list of URLs handed to `fetch` so far. -/
structure AppState where
  currentPage : Nat
  totalPages : Nat
  allCharacters : List Character
  filteredCharacters : List Character
  selectedStatus : String
  /-- Children of `#characters-grid`. -/
  charactersGrid : List Element
  /-- Value of `loadingElement.style.display`. -/
  loadingDisplay : String
  /-- Value of `errorElement.style.display`. -/
  errorDisplay : String
  /-- Value of `errorMessage.textContent`. -/
  errorMessage : String
  /-- Value of `pageInfo.textContent`. -/
  pageInfo : String
  /-- Value of `prevBtn.disabled`. -/
  prevDisabled : Bool
  /-- Value of `nextBtn.disabled`. -/
  nextDisabled : Bool
  /-- Value of `statusFilter.value`. -/
  statusFilterValue : String
  /-- URLs passed to `fetch`, oldest first. -/
  fetched : List String

/-- The state right after the module initialisers of lines 26-30 have run over a document:
the five variables have their initial values, the DOM part is that of the given `document`
and nothing has been fetched. -/
def initialState (document : AppState) : AppState :=
  { document with
    currentPage := 1
    totalPages := 1
    allCharacters := []
    filteredCharacters := []
    selectedStatus := ""
    fetched := [] }

/-! ## DOM helpers (lines 199-217) -/

/-- Function `showLoading(show)`; the argument is called `shown` here. -/
def showLoading (s : AppState) (shown : Bool) : AppState :=
  { s with loadingDisplay := if shown then "flex" else "none" }

/-- Function `showError(message)`. -/
def showError (s : AppState) (message : String) : AppState :=
  { s with errorMessage := message, errorDisplay := "block" }

/-- Function `hideError()`. -/
def hideError (s : AppState) : AppState :=
  { s with errorDisplay := "none" }

/-! ## Fetch (lines 59-87) -/

/-- The `message` of the error that reaches the `catch` block of `fetchCharacters`, if any:
the rejection of `fetch` itself, or the error thrown at line 71 for a response that is not ok. -/
def FetchOutcome.errorMessage : FetchOutcome → Option String
  | .networkError message => some message
  | .httpError status statusText =>
      some ("Erro na API: " ++ toString status ++ " " ++ statusText)
  | .ok _ => none

/-- Function `fetchCharacters(page)`, given what the request comes back with. Returns the
state after the `finally` block, and either the data returned or the message of the error
rethrown. -/
def fetchCharacters (s : AppState) (page : Nat) (outcome : FetchOutcome) :
    AppState × Except String PageData :=
  let s := showLoading s true
  let s := hideError s
  let url := API_BASE_URL ++ "?page=" ++ toString page
  let s := { s with fetched := s.fetched ++ [url] }
  match outcome with
  | .ok data =>
      let s := { s with totalPages := data.pages }
      (showLoading s false, .ok data)
  | failed =>
      let message := (failed.errorMessage).getD ""
      let s := showError s ("Erro ao carregar personagens: " ++ message)
      (showLoading s false, .error message)

/-! ## Render surface (lines 100-193) -/

/-- Function `createCharacterCard(character)`. -/
def createCharacterCard (toLowerCase : String → String) (character : Character) : Element :=
  let card := (createElement "div").setClassName "character-card"
  let image := (createElement "img").setClassName "character-image"
  let image := image.setProp "src" character.image
  let image := image.setProp "alt" character.name
  let image := image.setProp "loading" "lazy"
  let info := (createElement "div").setClassName "character-info"
  let name := (createElement "h3").setClassName "character-name"
  let name := name.setTextContent character.name
  let statusContainer := (createElement "div").setClassName "character-status"
  let statusIndicator := (createElement "span").setClassName
    ("status-indicator status-" ++ toLowerCase character.status)
  let statusText := (createElement "span").setTextContent
    (character.status ++ " - " ++ character.gender)
  let statusContainer := statusContainer.appendChild statusIndicator
  let statusContainer := statusContainer.appendChild statusText
  let species := (createElement "p").setClassName "character-species"
  let species := species.setTextContent ("Espécie: " ++ character.species)
  let location := (createElement "p").setClassName "character-location"
  let location := location.setTextContent ("Localização: " ++ character.locationName)
  let info := info.appendChild name
  let info := info.appendChild statusContainer
  let info := info.appendChild species
  let info := info.appendChild location
  let card := card.appendChild image
  let card := card.appendChild info
  card

/-- The placeholder paragraph built at lines 167-171. -/
def emptyMessage : Element :=
  let e := createElement "p"
  let e := e.setStyle "gridColumn" "1 / -1"
  let e := e.setStyle "textAlign" "center"
  let e := e.setStyle "padding" "2rem"
  e.setTextContent "Nenhum personagem encontrado com os filtros selecionados."

/-- Function `renderCharacters(characters)`: empties the grid, then appends either the
placeholder or, item by item, one card each. -/
def renderCharacters (toLowerCase : String → String) (s : AppState)
    (characters : List Character) : AppState :=
  let s := { s with charactersGrid := [] }
  if characters.length = 0 then
    { s with charactersGrid := s.charactersGrid ++ [emptyMessage] }
  else
    characters.foldl
      (fun s character =>
        let card := createCharacterCard toLowerCase character
        { s with charactersGrid := s.charactersGrid ++ [card] })
      s

/-- Function `updatePaginationInfo()`. -/
def updatePaginationInfo (s : AppState) : AppState :=
  { s with
    pageInfo := "Página " ++ toString s.currentPage ++ " de " ++ toString s.totalPages
    prevDisabled := decide (s.currentPage = 1)
    nextDisabled := decide (s.currentPage = s.totalPages) }

/-! ## Filter (lines 229-246) -/

/-- JavaScript truthiness of a value that is a string or absent: the test `!status` of
line 230 succeeds exactly when this is false. -/
def truthy : Option String → Bool
  | none => false
  | some v => v != ""

/-- Function `filterByStatus(characters, status)`; `none` is an absent status. -/
def filterByStatus (toLowerCase : String → String) (characters : List Character)
    (status : Option String) : List Character :=
  if !truthy status then
    characters
  else
    characters.filter (fun character =>
      toLowerCase character.status == toLowerCase (status.getD ""))

/-- Function `applyFilters()`. -/
def applyFilters (toLowerCase : String → String) (s : AppState) : AppState :=
  let s := { s with
    filteredCharacters := filterByStatus toLowerCase s.allCharacters (some s.selectedStatus) }
  let s := { s with currentPage := 1 }
  let s := renderCharacters toLowerCase s s.filteredCharacters
  updatePaginationInfo s

/-! ## Page loading and event handlers (lines 256-297) -/

/-- Function `loadPage(page)`, given what the request comes back with. -/
def loadPage (toLowerCase : String → String) (s : AppState) (page : Nat)
    (outcome : FetchOutcome) : AppState :=
  match fetchCharacters s page outcome with
  | (s, .ok data) =>
      let s := { s with allCharacters := data.results }
      let s := { s with currentPage := page }
      applyFilters toLowerCase s
  | (s, .error _) => s

/-- Click handler of `nextBtn`; `outcome` answers the request if one is made. -/
def nextBtnClick (toLowerCase : String → String) (s : AppState)
    (outcome : FetchOutcome) : AppState :=
  if s.currentPage < s.totalPages then
    loadPage toLowerCase s (s.currentPage + 1) outcome
  else s

/-- Click handler of `prevBtn`; `outcome` answers the request if one is made. -/
def prevBtnClick (toLowerCase : String → String) (s : AppState)
    (outcome : FetchOutcome) : AppState :=
  if s.currentPage > 1 then
    loadPage toLowerCase s (s.currentPage - 1) outcome
  else s

/-- Change handler of `statusFilter`: the user has picked `value` in the select. -/
def statusFilterChange (toLowerCase : String → String) (s : AppState)
    (value : String) : AppState :=
  let s := { s with statusFilterValue := value }
  let s := { s with selectedStatus := s.statusFilterValue }
  applyFilters toLowerCase s

/-- Click handler of `resetFiltersBtn`. -/
def resetFiltersClick (toLowerCase : String → String) (s : AppState) : AppState :=
  let s := { s with selectedStatus := "" }
  let s := { s with statusFilterValue := "" }
  applyFilters toLowerCase s

/-- The user-level actions on the character view. -/
inductive Action where
  /-- A call `loadPage(page)` whose request comes back with `outcome` (start-up uses page 1). -/
  | load (page : Nat) (outcome : FetchOutcome)
  /-- A click on the next button. -/
  | next (outcome : FetchOutcome)
  /-- A click on the previous button. -/
  | prev (outcome : FetchOutcome)
  /-- A change of the status select to `value`. -/
  | filter (value : String)
  /-- A click on the reset-filters button. -/
  | reset

/-- One action, run to completion. -/
def step (toLowerCase : String → String) (s : AppState) : Action → AppState
  | .load page outcome => loadPage toLowerCase s page outcome
  | .next outcome => nextBtnClick toLowerCase s outcome
  | .prev outcome => prevBtnClick toLowerCase s outcome
  | .filter value => statusFilterChange toLowerCase s value
  | .reset => resetFiltersClick toLowerCase s

/-- A sequence of actions, each run to completion before the next starts. -/
def run (toLowerCase : String → String) (s : AppState) (actions : List Action) : AppState :=
  actions.foldl (step toLowerCase) s

/-! ## Theme (lines 309-343) -/

/-- What the theme functions read and write: whether `document.body.classList` holds
`light-mode`, the text of the theme icon, and the entry of `localStorage` under
`THEME_STORAGE_KEY` (`none` when there is no entry). -/
structure ThemeState where
  lightMode : Bool
  themeIcon : String
  stored : Option String
  deriving DecidableEq, Repr

/-- Function `applyTheme(theme)`. -/
def applyTheme (s : ThemeState) (theme : String) : ThemeState :=
  let s :=
    if theme = "light" then
      { s with lightMode := true, themeIcon := "☀️" }
    else
      { s with lightMode := false, themeIcon := "🌙" }
  { s with stored := some theme }

/-- Function `loadTheme()`; `prefersDark` is what the media query reports. -/
def loadTheme (s : ThemeState) (prefersDark : Bool) : ThemeState :=
  let savedTheme := s.stored
  if truthy savedTheme then
    applyTheme s (savedTheme.getD "")
  else if !prefersDark then
    applyTheme s "light"
  else s

/-- Function `toggleTheme()`. -/
def toggleTheme (s : ThemeState) : ThemeState :=
  let isLightMode := s.lightMode
  let newTheme := if isLightMode then "dark" else "light"
  applyTheme s newTheme

/-! ## Reference definitions and predicates used in the statements -/

/-- The order-preserving sub-sequence of `items` made of the records whose status equals
`status` once both are lower-cased. -/
def statusSubsequence (toLowerCase : String → String) (status : String) :
    List Character → List Character
  | [] => []
  | item :: rest =>
      if toLowerCase item.status = toLowerCase status then
        item :: statusSubsequence toLowerCase status rest
      else
        statusSubsequence toLowerCase status rest

/-- Reference definition of the filter, following the specification: `items` itself when
the status is absent or empty, the matching sub-sequence otherwise. -/
def filterByStatusSpec (toLowerCase : String → String) (items : List Character) :
    Option String → List Character
  | none => items
  | some status => if status = "" then items else statusSubsequence toLowerCase status items

/-- An element is a character card when it carries the class given at line 103. -/
def isCard (e : Element) : Bool := e.className == "character-card"

/-- An element is the placeholder message when it is a paragraph with the text of line 171. -/
def isEmptyMessage (e : Element) : Bool :=
  e.tag == "p" && e.textContent == "Nenhum personagem encontrado com os filtros selecionados."

/-- The pagination controls agree with the page variables of the same state. -/
def paginationShown (s : AppState) : Prop :=
  s.pageInfo = "Página " ++ toString s.currentPage ++ " de " ++ toString s.totalPages
    ∧ (s.prevDisabled = true ↔ s.currentPage = 1)
    ∧ (s.nextDisabled = true ↔ s.currentPage = s.totalPages)

/-- The two facts carried along every run: the filtered list is the filter of the full
list, and the page counter is 1. -/
def settled (toLowerCase : String → String) (s : AppState) : Prop :=
  s.filteredCharacters = filterByStatus toLowerCase s.allCharacters (some s.selectedStatus)
    ∧ s.currentPage = 1

/-- Name under which `applyTheme` is called for a surface mode by `toggleTheme`. -/
def modeName (lightMode : Bool) : String := if lightMode then "light" else "dark"

/-! ## Concrete data for the examples -/

/-- An ASCII lower-casing function that evaluates by computation, for the examples. -/
def asciiLower (s : String) : String := String.mk (s.data.map Char.toLower)

/-- A sample record. -/
def rick : Character := ⟨1, "Rick", "Alive", "Human", "Male", "Earth", "1.jpeg"⟩

/-- A sample record. -/
def morty : Character := ⟨2, "Morty", "Alive", "Human", "Male", "Earth", "2.jpeg"⟩

/-- A document before the script has written anything to it. -/
def blankDocument : AppState :=
  { currentPage := 0, totalPages := 0, allCharacters := [], filteredCharacters := [],
    selectedStatus := "", charactersGrid := [], loadingDisplay := "none",
    errorDisplay := "none", errorMessage := "", pageInfo := "", prevDisabled := false,
    nextDisabled := false, statusFilterValue := "", fetched := [] }

/-- The view after start-up against a source of 42 pages whose first page holds two records. -/
def pageOneLoaded : AppState :=
  loadPage asciiLower (initialState blankDocument) 1 (.ok ⟨42, [rick, morty]⟩)

/-- Theme state of a first run on a system that prefers dark: dark surface, nothing stored. -/
def firstRunDark : ThemeState := ⟨false, "🌙", none⟩

/-! ## Lemmas on the filter -/

theorem statusSubsequence_eq_filter (toLowerCase : String → String) (status : String)
    (items : List Character) :
    statusSubsequence toLowerCase status items
      = items.filter (fun character => toLowerCase character.status == toLowerCase status) := by
  induction items with
  | nil => rfl
  | cons item rest ih =>
      by_cases h : toLowerCase item.status = toLowerCase status
      · simp [statusSubsequence, List.filter_cons, h, ih]
      · simp [statusSubsequence, List.filter_cons, h, ih]

theorem filterByStatus_none (toLowerCase : String → String) (items : List Character) :
    filterByStatus toLowerCase items none = items := by
  simp [filterByStatus, truthy]

theorem filterByStatus_empty (toLowerCase : String → String) (items : List Character) :
    filterByStatus toLowerCase items (some "") = items := by
  simp [filterByStatus, truthy]

theorem filterByStatus_some (toLowerCase : String → String) (items : List Character)
    (status : String) (h : status ≠ "") :
    filterByStatus toLowerCase items (some status)
      = items.filter (fun character => toLowerCase character.status == toLowerCase status) := by
  simp [filterByStatus, truthy, h]

/-! ## Lemmas on the render surface -/

theorem foldl_appendCard (toLowerCase : String → String) (characters : List Character)
    (s : AppState) :
    characters.foldl
        (fun s character =>
          let card := createCharacterCard toLowerCase character
          { s with charactersGrid := s.charactersGrid ++ [card] })
        s
      = { s with
          charactersGrid :=
            s.charactersGrid ++ characters.map (createCharacterCard toLowerCase) } := by
  induction characters generalizing s with
  | nil => simp
  | cons character rest ih => simp [List.foldl_cons, ih]

theorem renderCharacters_eq (toLowerCase : String → String) (s : AppState)
    (characters : List Character) :
    renderCharacters toLowerCase s characters
      = { s with
          charactersGrid :=
            if characters = [] then [emptyMessage]
            else characters.map (createCharacterCard toLowerCase) } := by
  unfold renderCharacters
  by_cases h : characters = []
  · simp [h]
  · simp [h, foldl_appendCard]

theorem isCard_createCharacterCard (toLowerCase : String → String) (character : Character) :
    isCard (createCharacterCard toLowerCase character) = true := by
  simp [isCard, createCharacterCard, createElement, Element.setClassName, Element.appendChild,
    Element.className]

theorem isEmptyMessage_createCharacterCard (toLowerCase : String → String)
    (character : Character) :
    isEmptyMessage (createCharacterCard toLowerCase character) = false := by
  simp [isEmptyMessage, createCharacterCard, createElement, Element.setClassName,
    Element.appendChild, Element.tag]

/-! ## Filter engine -/

/-- C4: for every list of records and every status, absent (`none`) or given,
`filterByStatus` equals the reference definition: the list itself when the status is absent
or empty, otherwise the order-preserving sub-sequence of the records whose lower-cased
status equals the lower-cased status asked for. The result is a sub-sequence of the input
in every case, and a record is in it exactly when it is in the input and, for a non-empty
status, matches. -/
theorem filterByStatus_eq_spec (toLowerCase : String → String) (items : List Character)
    (status : Option String) :
    filterByStatus toLowerCase items status = filterByStatusSpec toLowerCase items status
      ∧ List.Sublist (filterByStatus toLowerCase items status) items
      ∧ ∀ item, item ∈ filterByStatus toLowerCase items status ↔
          item ∈ items ∧
            (truthy status = false ∨ toLowerCase item.status = toLowerCase (status.getD "")) := by
  cases status with
  | none =>
      refine ⟨?_, ?_, ?_⟩
      · simp [filterByStatus_none, filterByStatusSpec]
      · simp [filterByStatus_none]
      · intro item
        simp [filterByStatus_none, truthy]
  | some status =>
      by_cases h : status = ""
      · subst h
        refine ⟨?_, ?_, ?_⟩
        · simp [filterByStatus_empty, filterByStatusSpec]
        · simp [filterByStatus_empty]
        · intro item
          simp [filterByStatus_empty, truthy]
      · refine ⟨?_, ?_, ?_⟩
        · simp [filterByStatus_some _ _ _ h, filterByStatusSpec, h, statusSubsequence_eq_filter]
        · rw [filterByStatus_some _ _ _ h]
          exact List.filter_sublist _
        · intro item
          simp [filterByStatus_some _ _ _ h, truthy, h, List.mem_filter]

/-- C5: filtering an already filtered list again with the same status changes nothing, for
every list of records and every status, absent or given. -/
theorem filterByStatus_idempotent (toLowerCase : String → String) (items : List Character)
    (status : Option String) :
    filterByStatus toLowerCase (filterByStatus toLowerCase items status) status
      = filterByStatus toLowerCase items status := by
  unfold filterByStatus
  by_cases h : truthy status = true
  · simp [h, List.filter_filter]
  · simp [h]

/-! ## Render surface -/

/-- C7: whatever the results container held before, after `renderCharacters(items)` it holds
the placeholder message alone when `items` is empty and otherwise the cards of the items in
input order, an expression in which the prior content does not occur; the card elements in
it are exactly one per item in input order (none when `items` is empty), and the placeholder
occurs once when `items` is empty and not at all otherwise. -/
theorem renderCharacters_grid (toLowerCase : String → String) (s : AppState)
    (prior : List Element) (items : List Character) :
    (renderCharacters toLowerCase { s with charactersGrid := prior } items).charactersGrid
        = (if items = [] then [emptyMessage]
           else items.map (createCharacterCard toLowerCase))
      ∧ (renderCharacters toLowerCase { s with charactersGrid := prior } items).charactersGrid.filter
            isCard
          = items.map (createCharacterCard toLowerCase)
      ∧ (renderCharacters toLowerCase { s with charactersGrid := prior } items).charactersGrid.countP
            isCard
          = items.length
      ∧ (renderCharacters toLowerCase { s with charactersGrid := prior } items).charactersGrid.countP
            isEmptyMessage
          = (if items = [] then 1 else 0) := by
  rw [renderCharacters_eq]
  by_cases h : items = []
  · subst h
    exact ⟨rfl, rfl, rfl, rfl⟩
  · have hgrid : ∀ (t : AppState) (g : List Element),
        ({ t with charactersGrid := g } : AppState).charactersGrid = g := fun _ _ => rfl
    rw [hgrid, if_neg h]
    refine ⟨rfl, ?_, ?_, ?_⟩
    · rw [List.filter_eq_self]
      intro e he
      obtain ⟨c, -, rfl⟩ := List.mem_map.mp he
      exact isCard_createCharacterCard toLowerCase c
    · rw [List.countP_eq_length_filter, List.filter_eq_self.mpr, List.length_map]
      intro e he
      obtain ⟨c, -, rfl⟩ := List.mem_map.mp he
      exact isCard_createCharacterCard toLowerCase c
    · rw [if_neg h, List.countP_eq_zero]
      intro e he
      obtain ⟨c, -, rfl⟩ := List.mem_map.mp he
      simp [isEmptyMessage_createCharacterCard]

/-! ## Lemmas on the view state -/

theorem applyFilters_eq (toLowerCase : String → String) (s : AppState) :
    applyFilters toLowerCase s
      = { s with
          filteredCharacters := filterByStatus toLowerCase s.allCharacters (some s.selectedStatus)
          currentPage := 1
          charactersGrid :=
            if filterByStatus toLowerCase s.allCharacters (some s.selectedStatus) = [] then
              [emptyMessage]
            else
              (filterByStatus toLowerCase s.allCharacters (some s.selectedStatus)).map
                (createCharacterCard toLowerCase)
          pageInfo := "Página " ++ toString 1 ++ " de " ++ toString s.totalPages
          prevDisabled := true
          nextDisabled := decide (1 = s.totalPages) } := by
  simp [applyFilters, renderCharacters_eq, updatePaginationInfo]

theorem loadPage_ok (toLowerCase : String → String) (s : AppState) (page : Nat)
    (data : PageData) :
    loadPage toLowerCase s page (.ok data)
      = applyFilters toLowerCase
          { s with
            loadingDisplay := "none"
            errorDisplay := "none"
            fetched := s.fetched ++ [API_BASE_URL ++ "?page=" ++ toString page]
            totalPages := data.pages
            allCharacters := data.results
            currentPage := page } := by
  simp [loadPage, fetchCharacters, showLoading, hideError]

theorem loadPage_failed (toLowerCase : String → String) (s : AppState) (page : Nat)
    (outcome : FetchOutcome) (message : String)
    (h : outcome.errorMessage = some message) :
    loadPage toLowerCase s page outcome
      = { s with
          loadingDisplay := "none"
          errorDisplay := "block"
          errorMessage := "Erro ao carregar personagens: " ++ message
          fetched := s.fetched ++ [API_BASE_URL ++ "?page=" ++ toString page] } := by
  cases outcome with
  | ok data => simp [FetchOutcome.errorMessage] at h
  | networkError m =>
      simp only [FetchOutcome.errorMessage, Option.some.injEq] at h
      subst h
      simp [loadPage, fetchCharacters, showLoading, hideError, showError,
        FetchOutcome.errorMessage]
  | httpError st txt =>
      simp only [FetchOutcome.errorMessage, Option.some.injEq] at h
      subst h
      simp [loadPage, fetchCharacters, showLoading, hideError, showError,
        FetchOutcome.errorMessage]

theorem errorMessage_cases (outcome : FetchOutcome) :
    (∃ data, outcome = .ok data) ∨ ∃ message, outcome.errorMessage = some message := by
  cases outcome with
  | ok data => exact Or.inl ⟨data, rfl⟩
  | networkError m => exact Or.inr ⟨_, rfl⟩
  | httpError st txt => exact Or.inr ⟨_, rfl⟩

theorem settled_applyFilters (toLowerCase : String → String) (s : AppState) :
    settled toLowerCase (applyFilters toLowerCase s) := by
  rw [applyFilters_eq]
  exact ⟨rfl, rfl⟩

theorem settled_loadPage (toLowerCase : String → String) (s : AppState) (page : Nat)
    (outcome : FetchOutcome) (h : settled toLowerCase s) :
    settled toLowerCase (loadPage toLowerCase s page outcome) := by
  rcases errorMessage_cases outcome with ⟨data, rfl⟩ | ⟨message, hm⟩
  · rw [loadPage_ok]
    exact settled_applyFilters _ _
  · rw [loadPage_failed _ _ _ _ _ hm]
    exact h

theorem settled_step (toLowerCase : String → String) (s : AppState) (a : Action)
    (h : settled toLowerCase s) : settled toLowerCase (step toLowerCase s a) := by
  cases a with
  | load page outcome => exact settled_loadPage _ _ _ _ h
  | next outcome =>
      show settled toLowerCase (nextBtnClick toLowerCase s outcome)
      unfold nextBtnClick
      split
      · exact settled_loadPage _ _ _ _ h
      · exact h
  | prev outcome =>
      show settled toLowerCase (prevBtnClick toLowerCase s outcome)
      unfold prevBtnClick
      split
      · exact settled_loadPage _ _ _ _ h
      · exact h
  | filter value => exact settled_applyFilters _ _
  | reset => exact settled_applyFilters _ _

theorem settled_run (toLowerCase : String → String) (actions : List Action) (s : AppState)
    (h : settled toLowerCase s) : settled toLowerCase (run toLowerCase s actions) := by
  induction actions generalizing s with
  | nil => exact h
  | cons a rest ih => exact ih _ (settled_step _ _ a h)

theorem settled_initialState (toLowerCase : String → String) (document : AppState) :
    settled toLowerCase (initialState document) := by
  constructor
  · simp [initialState, filterByStatus, truthy]
  · rfl

theorem loadPage_fetched (toLowerCase : String → String) (s : AppState) (page : Nat)
    (outcome : FetchOutcome) :
    (loadPage toLowerCase s page outcome).fetched
      = s.fetched ++ [API_BASE_URL ++ "?page=" ++ toString page] := by
  rcases errorMessage_cases outcome with ⟨data, rfl⟩ | ⟨message, hm⟩
  · rw [loadPage_ok, applyFilters_eq]
  · rw [loadPage_failed _ _ _ _ _ hm]

theorem paginationShown_applyFilters (toLowerCase : String → String) (s : AppState) :
    paginationShown (applyFilters toLowerCase s) := by
  rw [applyFilters_eq]
  refine ⟨rfl, ?_, ?_⟩
  · simp
  · simp

/-! ## View state and controller -/

/-- C1, evaluated where it fails: with page 1 of a 42-page source loaded, a successful
`loadPage(2)` requests page 2 and stores its records, yet leaves `currentPage` at 1, the
indicator at page 1 of 42 and the prev button disabled, where the claim has
`currentPage` equal to 2 and the prev button enabled. -/
theorem loadPage_two_currentPage :
    pageOneLoaded.currentPage = 1 ∧ pageOneLoaded.totalPages = 42
      ∧ (loadPage asciiLower pageOneLoaded 2 (.ok ⟨42, [morty]⟩)).fetched
          = [ "https://rickandmortyapi.com/api/character?page=1",
              "https://rickandmortyapi.com/api/character?page=2" ]
      ∧ (loadPage asciiLower pageOneLoaded 2 (.ok ⟨42, [morty]⟩)).allCharacters = [morty]
      ∧ (loadPage asciiLower pageOneLoaded 2 (.ok ⟨42, [morty]⟩)).currentPage = 1
      ∧ (loadPage asciiLower pageOneLoaded 2 (.ok ⟨42, [morty]⟩)).pageInfo = "Página 1 de 42"
      ∧ (loadPage asciiLower pageOneLoaded 2 (.ok ⟨42, [morty]⟩)).prevDisabled = true
      ∧ (loadPage asciiLower pageOneLoaded 2 (.ok ⟨42, [morty]⟩)).nextDisabled = false := by
  decide

/-- C2: for every prior state and page number, when the request inside `loadPage` fails
(the fetch rejects, or the response is not ok) with error message `message`, then after
`loadPage` the five view variables are what they were, the error banner is displayed with
the text "Erro ao carregar personagens: " followed by `message`, and the loading indicator
is hidden. -/
theorem loadPage_failure_keeps_view (toLowerCase : String → String) (s : AppState)
    (page : Nat) (outcome : FetchOutcome) (message : String)
    (h : outcome.errorMessage = some message) :
    (loadPage toLowerCase s page outcome).currentPage = s.currentPage
      ∧ (loadPage toLowerCase s page outcome).totalPages = s.totalPages
      ∧ (loadPage toLowerCase s page outcome).allCharacters = s.allCharacters
      ∧ (loadPage toLowerCase s page outcome).filteredCharacters = s.filteredCharacters
      ∧ (loadPage toLowerCase s page outcome).selectedStatus = s.selectedStatus
      ∧ (loadPage toLowerCase s page outcome).errorDisplay = "block"
      ∧ (loadPage toLowerCase s page outcome).errorMessage
          = "Erro ao carregar personagens: " ++ message
      ∧ (loadPage toLowerCase s page outcome).loadingDisplay = "none" := by
  rw [loadPage_failed _ _ _ _ _ h]
  exact ⟨rfl, rfl, rfl, rfl, rfl, rfl, rfl, rfl⟩

/-- Witness of C2: page 2 asked for with page 1 of 42 loaded, answered by status 500. -/
theorem loadPage_failure_keeps_view_witness :
    (FetchOutcome.httpError 500 "Internal Server Error").errorMessage
        = some "Erro na API: 500 Internal Server Error"
      ∧ (loadPage asciiLower pageOneLoaded 2
            (.httpError 500 "Internal Server Error")).currentPage = pageOneLoaded.currentPage
      ∧ (loadPage asciiLower pageOneLoaded 2
            (.httpError 500 "Internal Server Error")).totalPages = pageOneLoaded.totalPages
      ∧ (loadPage asciiLower pageOneLoaded 2
            (.httpError 500 "Internal Server Error")).allCharacters = pageOneLoaded.allCharacters
      ∧ (loadPage asciiLower pageOneLoaded 2
            (.httpError 500 "Internal Server Error")).filteredCharacters
          = pageOneLoaded.filteredCharacters
      ∧ (loadPage asciiLower pageOneLoaded 2
            (.httpError 500 "Internal Server Error")).selectedStatus
          = pageOneLoaded.selectedStatus
      ∧ (loadPage asciiLower pageOneLoaded 2
            (.httpError 500 "Internal Server Error")).errorDisplay = "block"
      ∧ (loadPage asciiLower pageOneLoaded 2
            (.httpError 500 "Internal Server Error")).errorMessage
          = "Erro ao carregar personagens: " ++ "Erro na API: 500 Internal Server Error"
      ∧ (loadPage asciiLower pageOneLoaded 2
            (.httpError 500 "Internal Server Error")).loadingDisplay = "none" :=
  ⟨by decide,
    loadPage_failure_keeps_view asciiLower pageOneLoaded 2
      (.httpError 500 "Internal Server Error") "Erro na API: 500 Internal Server Error"
      (by decide)⟩

/-- C3: in every state reached from the initial state by any sequence of actions (page
load answered by success or failure, next, prev, status-filter change, reset), each run to
completion, `filteredCharacters` is `filterByStatus(allCharacters, selectedStatus)`. -/
theorem run_filteredCharacters (toLowerCase : String → String) (document : AppState)
    (actions : List Action) :
    (run toLowerCase (initialState document) actions).filteredCharacters
      = filterByStatus toLowerCase
          (run toLowerCase (initialState document) actions).allCharacters
          (some (run toLowerCase (initialState document) actions).selectedStatus) :=
  (settled_run toLowerCase actions _ (settled_initialState toLowerCase document)).1

/-- C6: after a successful `loadPage`, after a status-filter change and after a reset of
the filters, the page indicator reads "Página", the current page, "de", the total pages of
the resulting state, the prev button is disabled exactly when `currentPage` is 1 and the
next button exactly when `currentPage` equals `totalPages`; and loading page 1 from a source
that reports 42 pages gives "Página 1 de 42", prev disabled, next enabled. -/
theorem paginationShown_after_transition (toLowerCase : String → String) (s : AppState) :
    (∀ page data, paginationShown (loadPage toLowerCase s page (.ok data)))
      ∧ (∀ value, paginationShown (statusFilterChange toLowerCase s value))
      ∧ paginationShown (resetFiltersClick toLowerCase s)
      ∧ ∀ results,
          (loadPage toLowerCase s 1 (.ok ⟨42, results⟩)).pageInfo = "Página 1 de 42"
            ∧ (loadPage toLowerCase s 1 (.ok ⟨42, results⟩)).prevDisabled = true
            ∧ (loadPage toLowerCase s 1 (.ok ⟨42, results⟩)).nextDisabled = false := by
  refine ⟨?_, ?_, ?_, ?_⟩
  · intro page data
    rw [loadPage_ok]
    exact paginationShown_applyFilters _ _
  · intro value
    exact paginationShown_applyFilters _ _
  · exact paginationShown_applyFilters _ _
  · intro results
    rw [loadPage_ok, applyFilters_eq]
    refine ⟨?_, rfl, ?_⟩
    · show "Página " ++ toString 1 ++ " de " ++ toString 42 = "Página 1 de 42"
      decide
    · show decide (1 = 42) = false
      decide

/-- C10: in every state reached from the initial state by any sequence of actions, each
run to completion, `currentPage` is 1; in such a state a click on the prev button changes
nothing and requests nothing, and a click on the next button either requests nothing or
requests exactly page 2, being `loadPage(2)` when `totalPages` exceeds 1. -/
theorem run_currentPage (toLowerCase : String → String) (document : AppState)
    (actions : List Action) :
    (run toLowerCase (initialState document) actions).currentPage = 1
      ∧ (∀ outcome,
          prevBtnClick toLowerCase (run toLowerCase (initialState document) actions) outcome
            = run toLowerCase (initialState document) actions)
      ∧ (∀ outcome,
          nextBtnClick toLowerCase (run toLowerCase (initialState document) actions) outcome
            = if 1 < (run toLowerCase (initialState document) actions).totalPages then
                loadPage toLowerCase (run toLowerCase (initialState document) actions) 2 outcome
              else run toLowerCase (initialState document) actions)
      ∧ ∀ outcome,
          (nextBtnClick toLowerCase (run toLowerCase (initialState document) actions)
              outcome).fetched
              = (run toLowerCase (initialState document) actions).fetched
            ∨ (nextBtnClick toLowerCase (run toLowerCase (initialState document) actions)
                outcome).fetched
              = (run toLowerCase (initialState document) actions).fetched
                  ++ ["https://rickandmortyapi.com/api/character?page=2"] := by
  have hp : (run toLowerCase (initialState document) actions).currentPage = 1 :=
    (settled_run toLowerCase actions _ (settled_initialState toLowerCase document)).2
  generalize run toLowerCase (initialState document) actions = s at hp ⊢
  refine ⟨hp, ?_, ?_, ?_⟩
  · intro outcome
    simp [prevBtnClick, hp]
  · intro outcome
    simp [nextBtnClick, hp]
  · intro outcome
    unfold nextBtnClick
    split
    · right
      rw [loadPage_fetched, hp]
      rfl
    · left
      rfl

/-! ## Theme controller -/

/-- C8, refuted as stated: on a first run with a system that prefers dark, `loadTheme`
leaves the surface dark with nothing persisted; two calls of `toggleTheme` from there
leave the surface dark but the persisted preference is "dark", not absent. -/
theorem firstRunDark_toggle_twice_stored :
    loadTheme firstRunDark true = firstRunDark
      ∧ firstRunDark.stored = none
      ∧ (toggleTheme (toggleTheme firstRunDark)).lightMode = firstRunDark.lightMode
      ∧ (toggleTheme (toggleTheme firstRunDark)).stored = some "dark"
      ∧ (toggleTheme (toggleTheme firstRunDark)).stored ≠ firstRunDark.stored := by
  decide

/-- C8, amended: for every theme state, two calls of `toggleTheme` in succession return
the surface to its original mode, with the icon of that mode, and leave the name of that
mode as the persisted preference; the persisted preference is back at its original value
exactly when that original value was the name of the applied mode. -/
theorem toggleTheme_twice_restores_mode (s : ThemeState) :
    (toggleTheme (toggleTheme s)).lightMode = s.lightMode
      ∧ (toggleTheme (toggleTheme s)).themeIcon = (if s.lightMode then "☀️" else "🌙")
      ∧ (toggleTheme (toggleTheme s)).stored = some (modeName s.lightMode)
      ∧ ((toggleTheme (toggleTheme s)).stored = s.stored
          ↔ s.stored = some (modeName s.lightMode)) := by
  obtain ⟨lightMode, icon, stored⟩ := s
  cases lightMode
  · have h2 : (toggleTheme (toggleTheme ⟨false, icon, stored⟩)).stored
        = some (modeName false) := rfl
    refine ⟨rfl, rfl, rfl, ?_⟩
    show (toggleTheme (toggleTheme ⟨false, icon, stored⟩)).stored = stored
      ↔ stored = some (modeName false)
    rw [h2]
    exact eq_comm
  · have h2 : (toggleTheme (toggleTheme ⟨true, icon, stored⟩)).stored
        = some (modeName true) := rfl
    refine ⟨rfl, rfl, rfl, ?_⟩
    show (toggleTheme (toggleTheme ⟨true, icon, stored⟩)).stored = stored
      ↔ stored = some (modeName true)
    rw [h2]
    exact eq_comm

/-- C9: whatever the surface shows beforehand, when nothing is persisted and the system
does not prefer dark, `loadTheme` puts the surface in light mode with the sun icon and
persists "light". -/
theorem loadTheme_first_run_light (lightMode : Bool) (themeIcon : String) :
    loadTheme ⟨lightMode, themeIcon, none⟩ false = ⟨true, "☀️", some "light"⟩ := by
  simp [loadTheme, truthy, applyTheme]

end RickMorty
